import Mathlib

/-!
Verification of the geocoding resolution subsystem of the bmlt-query-client
library. The definitions below are a shallow embedding of
`src/services/geocoding.ts` (transport adapter `fetchWithTimeout`, the result
normalisation inside `geocode` / `reverseGeocode` / `batchGeocode`) and of the
error taxonomy in `src/utils/errors.ts`. The external `p-retry` and `p-queue`
dependencies are not part of the repository sources; the retry loop and the
bounded request queue are modelled from the specification, as marked on their
definitions. JavaScript numbers produced by `parseFloat` are modelled as
`JsNum` (NaN, signed infinities, or a finite rational); JavaScript `Error`
values are modelled as `JsError` records carrying the dynamically attached
`name`, `message`, `statusCode` fields, the `instanceof TypeError` bit and the
`BmltQueryError.type` tag.
-/

namespace BmltGeo

/-- A JavaScript number as produced by `parseFloat`: NaN, a signed infinity,
or a finite value (modelled as a rational). -/
inductive JsNum where
  | nan
  | posInf
  | negInf
  | num (q : ℚ)
deriving Repr, DecidableEq

/-- JavaScript comparison `a < b`; false whenever either side is NaN. -/
def JsNum.jlt : JsNum → JsNum → Bool
  | .nan, _ => false
  | _, .nan => false
  | .negInf, .negInf => false
  | .negInf, _ => true
  | _, .negInf => false
  | .posInf, _ => false
  | _, .posInf => true
  | .num a, .num b => decide (a < b)

/-- JavaScript `isNaN` on a parsed number. -/
def JsNum.isNaN : JsNum → Bool
  | .nan => true
  | _ => false

/-- `true` exactly when the number is finite and inside `[lo, hi]`. -/
def JsNum.validRange (lo hi : ℚ) : JsNum → Bool
  | .num q => decide (lo ≤ q ∧ q ≤ hi)
  | _ => false

/-- A JavaScript `Error` value as the geocoding code builds and inspects them:
`name` and `message` are the standard fields, `statusCode` is the field the
code attaches dynamically (`BmltError`), `isTypeError` records whether the
value is an `instanceof TypeError`, and `etype` records the `type` tag when
the value is a `BmltQueryError` (errors.ts line 18). -/
structure JsError where
  name : String
  message : String
  statusCode : Option Nat := none
  isTypeError : Bool := false
  etype : Option String := none
deriving Repr, DecidableEq

/-- An error counts as the `GeocodingError` of the taxonomy when its `name` is
`GeocodingError` (ad hoc errors in geocoding.ts) or it is a `BmltQueryError`
whose `type` tag is `GeocodingError` (errors.ts `BmltErrorType.GEOCODING_ERROR`). -/
def isGeocodingError (e : JsError) : Bool :=
  e.name == "GeocodingError" || e.etype == some "GeocodingError"

/-- errors.ts lines 57-65: the error types `BmltQueryError.isRetryable`
recognises as retryable. -/
def retryableTypes : List String :=
  ["NetworkError", "TimeoutError", "RateLimitError", "ServerError"]

/-- errors.ts lines 57-65: `BmltQueryError.isRetryable`, as a function of the
error's `type` tag. -/
def isRetryable (etype : String) : Bool :=
  retryableTypes.contains etype

/-- The raw outcome of one `fetch` round trip inside `fetchWithTimeout`:
either the promise resolved with a response (status, status text, and the
result of `response.json()`, which itself may throw), or the promise rejected
(with `AbortError` when the timeout fired, a `TypeError` on transport failure,
or some other error). -/
inductive FetchOutcome (α : Type) where
  | response (status : Nat) (statusText : String) (json : Except JsError α)
  | fetchError (e : JsError)
deriving Repr

/-- Observable actions of `fetchWithTimeout`, used to track the timeout-timer
bookkeeping (geocoding.ts lines 82-130). -/
inductive Action where
  | setTimer
  | fetchCall
  | jsonParse
  | clearTimer
deriving Repr, DecidableEq

/-- A computation that either returned a value or threw an error. -/
inductive Outcome (α : Type) where
  | ret (v : α)
  | thrown (e : JsError)
deriving Repr

/-- View an `Except` result as a JavaScript outcome. -/
def Outcome.ofExcept : Except JsError α → Outcome α
  | .ok v => .ret v
  | .error e => .thrown e

/-- A computation together with the trace of actions it performed. -/
structure Comp (α : Type) where
  actions : List Action
  out : Outcome α

/-- JavaScript `try { body } catch (e) { handler } finally { finalizer }` with
a handler that only rethrows (possibly transformed) errors: the finalizer's
actions run after the body and the handler on every path. -/
def tryCatchFinally (body : Comp α) (handler : JsError → Outcome α)
    (finalizer : List Action) : Comp α :=
  { actions := body.actions ++ finalizer
    out :=
      match body.out with
      | .ret v => .ret v
      | .thrown e => handler e }

/-- `response.ok`: HTTP status in the 200-299 range. -/
def respOk (status : Nat) : Bool :=
  decide (200 ≤ status ∧ status ≤ 299)

/-- geocoding.ts lines 96-99: the rate-limit error thrown on HTTP 429. -/
def rateLimitError : JsError :=
  { name := "RateLimitError"
    message := "Rate limit exceeded for geocoding service"
    statusCode := some 429 }

/-- geocoding.ts lines 103-108: the API error thrown on HTTP status >= 400. -/
def apiGeoError (status : Nat) (statusText : String) : JsError :=
  { name := "GeocodingError"
    message := "Geocoding service error: " ++ toString status ++ " " ++ statusText
    statusCode := some status }

/-- geocoding.ts lines 116-118: the timeout error substituted for `AbortError`. -/
def timeoutError : JsError :=
  { name := "TimeoutError", message := "Request timeout during geocoding" }

/-- geocoding.ts lines 122-124: the network error substituted for `TypeError`. -/
def networkError : JsError :=
  { name := "NetworkError", message := "Network error occurred during geocoding" }

/-- The try-block of `fetchWithTimeout` (geocoding.ts lines 85-113): await the
fetch; on a response, throw the rate-limit error on status 429, the API error
on other statuses >= 400 (both only when `response.ok` is false), otherwise
parse the body as JSON and return it. -/
def tryBodyComp (outcome : FetchOutcome α) : Comp α :=
  match outcome with
  | .fetchError e => ⟨[Action.fetchCall], .thrown e⟩
  | .response status statusText json =>
    if !respOk status && status == 429 then
      ⟨[Action.fetchCall], .thrown rateLimitError⟩
    else if !respOk status && decide (400 ≤ status) then
      ⟨[Action.fetchCall], .thrown (apiGeoError status statusText)⟩
    else
      ⟨[Action.fetchCall, Action.jsonParse], Outcome.ofExcept json⟩

/-- The catch-clause of `fetchWithTimeout` (geocoding.ts lines 114-127):
an `AbortError` becomes the timeout error, a `TypeError` becomes the network
error, anything else is rethrown unchanged. -/
def catchClause (e : JsError) : JsError :=
  if e.name == "AbortError" then timeoutError
  else if e.isTypeError then networkError
  else e

/-- `fetchWithTimeout` with its action trace: set the timeout timer, run the
try-block, classify any thrown error in the catch-clause, and clear the timer
in the finally-clause (geocoding.ts lines 81-131). -/
def fetchWithTimeoutComp (outcome : FetchOutcome α) : Comp α :=
  let handled :=
    tryCatchFinally (tryBodyComp outcome)
      (fun e => Outcome.thrown (catchClause e)) [Action.clearTimer]
  ⟨Action.setTimer :: handled.actions, handled.out⟩

/-- The value/error semantics of `fetchWithTimeout`. -/
def fetchWithTimeout (outcome : FetchOutcome α) : Except JsError α :=
  match (fetchWithTimeoutComp outcome).out with
  | .ret v => .ok v
  | .thrown e => .error e

/-- The optional `address` sub-object of a Nominatim response
(geocoding.ts lines 18-31). `none` fields are absent keys. -/
structure NominatimAddress where
  house_number : Option String := none
  road : Option String := none
  neighbourhood : Option String := none
  suburb : Option String := none
  city : Option String := none
  town : Option String := none
  village : Option String := none
  county : Option String := none
  state : Option String := none
  postcode : Option String := none
  country : Option String := none
  country_code : Option String := none
deriving Repr, DecidableEq

/-- The fields of a `NominatimResponse` (geocoding.ts lines 10-34) that the
normalisation code reads. The provider delivers `lat` and `lon` as strings and
the code applies `parseFloat` to them; `lat` and `lon` here stand for those
`parseFloat` results. -/
structure NominatimResponse where
  lat : JsNum
  lon : JsNum
  display_name : String
  importance : Option JsNum := none
  address : Option NominatimAddress := none
deriving Repr, DecidableEq

/-- types/base.ts lines 61-64: a latitude/longitude pair (JavaScript numbers). -/
structure Coordinates where
  latitude : JsNum
  longitude : JsNum
deriving Repr, DecidableEq

/-- The inline `address` object of a `GeocodeResult`
(types/responses.ts lines 262-271). -/
structure NormalizedAddress where
  house_number : Option String := none
  road : Option String := none
  neighbourhood : Option String := none
  suburb : Option String := none
  city : Option String := none
  county : Option String := none
  state : Option String := none
  postcode : Option String := none
  country : Option String := none
deriving Repr, DecidableEq

/-- types/responses.ts lines 251-272: the result of a geocoding resolution. -/
structure GeocodeResult where
  coordinates : Coordinates
  display_name : String
  confidence : Option JsNum := none
  address : Option NormalizedAddress := none
deriving Repr, DecidableEq

/-- JavaScript `a || b` on optional strings: `a` when it is a present,
non-empty (truthy) string, otherwise `b`. -/
def jsOrS : Option String → Option String → Option String
  | some s, b => if s = "" then b else some s
  | none, b => b

/-- The address mapping of geocoding.ts lines 216-226 (and identically lines
311-321): fields are copied, and the `city` field is
`address.city || address.town || address.village`. -/
def mapAddress (a : NominatimAddress) : NormalizedAddress :=
  { house_number := a.house_number
    road := a.road
    neighbourhood := a.neighbourhood
    suburb := a.suburb
    city := jsOrS (jsOrS a.city a.town) a.village
    county := a.county
    state := a.state
    postcode := a.postcode
    country := a.country }

/-- Build the `GeocodeResult` returned at geocoding.ts lines 211-228 and
303-323 from a provider record and the already-parsed coordinates. -/
def resultFrom (r : NominatimResponse) (c : Coordinates) : GeocodeResult :=
  { coordinates := c
    display_name := r.display_name
    confidence := r.importance
    address := r.address.map mapAddress }

/-- geocoding.ts lines 178-181: the `BmltQueryError` of type
`GEOCODING_ERROR` thrown when the search payload is empty or absent. -/
def noResultsError (address : String) : JsError :=
  { name := "BmltQueryError"
    message := "No results found for address: " ++ address
    etype := some "GeocodingError" }

/-- geocoding.ts lines 193-197: the error thrown when a parsed coordinate is
NaN. -/
def invalidCoordsError : JsError :=
  { name := "GeocodingError"
    message := "Invalid coordinates received from geocoding service" }

/-- geocoding.ts lines 206-208: the error thrown when a parsed coordinate is
outside the valid range. -/
def outOfRangeError : JsError :=
  { name := "GeocodingError", message := "Coordinates out of valid range" }

/-- geocoding.ts lines 294-298: the error thrown when the reverse-geocoding
payload is absent. `coordsText` is the queried coordinate pair rendered into
the message. -/
def noReverseResultsError (coordsText : String) : JsError :=
  { name := "GeocodingError"
    message := "No results found for coordinates: " ++ coordsText }

/-- The out-of-range test of geocoding.ts lines 200-205 under JavaScript
comparison semantics: `lat < -90 || lat > 90 || lon < -180 || lon > 180`. -/
def outOfRangeCheck (lat lon : JsNum) : Bool :=
  lat.jlt (.num (-90)) || (JsNum.num 90).jlt lat ||
    lon.jlt (.num (-180)) || (JsNum.num 180).jlt lon

/-- The normalisation performed by `geocode` on a fetched search payload
(geocoding.ts lines 177-228): reject an absent or empty collection, take
element 0, reject NaN coordinates, reject out-of-range coordinates, and
otherwise build the result. `none` as payload models a JSON `null` body. -/
def normalizeSearch (address : String) (payload : Option (List NominatimResponse)) :
    Except JsError GeocodeResult :=
  match payload with
  | none => .error (noResultsError address)
  | some [] => .error (noResultsError address)
  | some (r :: _) =>
    if r.lat.isNaN || r.lon.isNaN then .error invalidCoordsError
    else if outOfRangeCheck r.lat r.lon then .error outOfRangeError
    else .ok (resultFrom r ⟨r.lat, r.lon⟩)

/-- The normalisation performed by `reverseGeocode` on a fetched payload
(geocoding.ts lines 293-323): reject an absent payload, otherwise build the
result directly from the parsed coordinates -- the source performs no NaN or
range validation on this path. `coordsText` is the queried coordinate pair as
rendered into the no-results message. -/
def normalizeReverse (coordsText : String) (payload : Option NominatimResponse) :
    Except JsError GeocodeResult :=
  match payload with
  | none => .error (noReverseResultsError coordsText)
  | some r => .ok (resultFrom r ⟨r.lat, r.lon⟩)

/-- One attempt of `geocode` (geocoding.ts lines 141-233): one transport call
followed by search normalisation. -/
def geocodeAttempt (address : String)
    (outcome : FetchOutcome (Option (List NominatimResponse))) :
    Except JsError GeocodeResult :=
  (fetchWithTimeout outcome).bind (normalizeSearch address)

/-- One attempt of `reverseGeocode` (geocoding.ts lines 278-327): one
transport call followed by reverse normalisation. -/
def reverseGeocodeAttempt (coordsText : String)
    (outcome : FetchOutcome (Option NominatimResponse)) :
    Except JsError GeocodeResult :=
  (fetchWithTimeout outcome).bind (normalizeReverse coordsText)

/-- The record of one run of the retry loop: how many attempts were executed,
the list of backoff delays (in milliseconds) waited between consecutive
attempts, and the final outcome. -/
structure RetryTrace (E α : Type) where
  attemptsMade : ℕ
  delays : List ℕ
  outcome : Except E α
deriving Repr

/-- Modelled from the spec: the bounded exponential-backoff retry loop that
the source delegates to the external `p-retry` dependency (not part of the
repository sources). Per spec section 4.3: execute the attempt; on success
return immediately; on failure, if no retries remain raise the last failure,
otherwise wait `min(minT * factor ^ (k - 1), maxT)` milliseconds before retry
`k` and try again. Attempts are numbered from 1; `fuel` counts the retries
still available. -/
def pRetryGo (minT maxT factor : ℕ) (attempt : ℕ → Except E α) :
    (fuel k : ℕ) → RetryTrace E α
  | 0, k =>
    match attempt k with
    | .ok v => ⟨1, [], .ok v⟩
    | .error e => ⟨1, [], .error e⟩
  | fuel + 1, k =>
    match attempt k with
    | .ok v => ⟨1, [], .ok v⟩
    | .error _ =>
      let rest := pRetryGo minT maxT factor attempt fuel (k + 1)
      ⟨rest.attemptsMade + 1,
        min (minT * factor ^ (k - 1)) maxT :: rest.delays,
        rest.outcome⟩

/-- Modelled from the spec: a full run of the retry loop with `retries`
retries allowed after the first attempt. -/
def pRetryRun (retries minT maxT factor : ℕ) (attempt : ℕ → Except E α) :
    RetryTrace E α :=
  pRetryGo minT maxT factor attempt retries 1

/-- The retry loop with the options `geocode` and `reverseGeocode` pass to it
(geocoding.ts lines 234-238 and 329-334): `retries = retryCount`,
`factor = 2`, `minTimeout = 1000`, `maxTimeout = 10000`. -/
def geocodeRetry (retryCount : ℕ) (attempt : ℕ → Except JsError α) :
    RetryTrace JsError α :=
  pRetryRun retryCount 1000 10000 2 attempt

/-- A full `geocode` call (geocoding.ts lines 136-247): the retry loop around
per-attempt transport and normalisation. `outcomes k` is the raw transport
outcome of attempt `k`. -/
def geocodeCall (retryCount : ℕ) (address : String)
    (outcomes : ℕ → FetchOutcome (Option (List NominatimResponse))) :
    RetryTrace JsError GeocodeResult :=
  geocodeRetry retryCount fun k => geocodeAttempt address (outcomes k)

/-- A full `reverseGeocode` call (geocoding.ts lines 270-337). -/
def reverseGeocodeCall (retryCount : ℕ) (coordsText : String)
    (outcomes : ℕ → FetchOutcome (Option NominatimResponse)) :
    RetryTrace JsError GeocodeResult :=
  geocodeRetry retryCount fun k => reverseGeocodeAttempt coordsText (outcomes k)

/-- The `.catch(... => null)` attached to each address's promise in
`batchGeocode` (geocoding.ts lines 257-260): a failure becomes `null`
(modelled as `none`). -/
def perAddressCatch (x : Except JsError GeocodeResult) : Option GeocodeResult :=
  match x with
  | .ok r => some r
  | .error _ => none

/-- `batchGeocode` (geocoding.ts lines 252-265) with the per-address geocode
outcome abstracted as `g`: map every address through `geocode` with the
null-absorbing catch, await all in input order, and drop the nulls. -/
def batchGeocode (g : String → Except JsError GeocodeResult)
    (addresses : List String) : List GeocodeResult :=
  (addresses.map fun a => perAddressCatch (g a)).reduceOption

/-- `latitude` in `[-90, 90]` and `longitude` in `[-180, 180]`, both finite
and non-NaN. -/
def validCoordinates (c : Coordinates) : Bool :=
  c.latitude.validRange (-90) 90 && c.longitude.validRange (-180) 180

/-- The static configuration of the bounded request queue
(geocoding.ts lines 69-75). -/
structure QueueConfig where
  concurrency : ℕ
  intervalCap : ℕ
  interval : ℕ
deriving Repr, DecidableEq

/-- Modelled from the spec: the state of the bounded request queue that the
source delegates to the external `p-queue` dependency (not part of the
repository sources), over discrete logical time. `pending` holds the
remaining durations of not-yet-started tasks in FIFO admission order,
`running` the remaining durations of executing tasks, and `startLog` the
start time of every task started so far. -/
structure QueueState where
  time : ℕ
  pending : List ℕ
  running : List ℕ
  startLog : List ℕ
deriving Repr, DecidableEq

/-- The number of logged task starts falling in fixed interval window number
`win` (the window covering times `win * interval` to `win * interval +
interval - 1`). -/
def windowStartCount (interval win : ℕ) (log : List ℕ) : ℕ :=
  (log.filter fun s => decide (s / interval = win)).length

/-- Modelled from the spec: one logical tick of the bounded request queue
(spec section 4.1). Tasks that have finished leave the running set; then as
many pending tasks are admitted, in FIFO order, as the concurrency cap and
the per-window interval cap allow, and their starts are logged at the current
time. -/
def qstep (cfg : QueueConfig) (s : QueueState) : QueueState :=
  let stillRunning := (s.running.map fun d => d - 1).filter fun d => decide (d ≠ 0)
  let w := windowStartCount cfg.interval (s.time / cfg.interval) s.startLog
  let slots := min (cfg.concurrency - stillRunning.length) (cfg.intervalCap - w)
  let n := min slots s.pending.length
  { time := s.time + 1
    pending := s.pending.drop n
    running := stillRunning ++ s.pending.take n
    startLog := s.startLog ++ List.replicate n s.time }

/-- Modelled from the spec: the queue run for `k` ticks from the initial
state in which every task (given by its duration) is already enqueued. -/
def qrun (cfg : QueueConfig) (tasks : List ℕ) : ℕ → QueueState
  | 0 => ⟨0, tasks, [], []⟩
  | k + 1 => qstep cfg (qrun cfg tasks k)

/-- The city preference exactly as the claim words it, keyed on key presence:
the provider's `city` when the key is present, otherwise `town`, otherwise
`village`. Stated for comparison with the source's `mapAddress`. -/
def cityBySpecPresence (a : NominatimAddress) : Option String :=
  match a.city with
  | some c => some c
  | none =>
    match a.town with
    | some t => some t
    | none => a.village

/-- JavaScript truthiness of an optional string: present and non-empty. -/
def truthyStr : Option String → Bool
  | some s => decide (s ≠ "")
  | none => false

/-- The amended city preference: `city` when present and non-empty (truthy),
otherwise `town` when present and non-empty, otherwise `village` as-is. -/
def cityAmended (a : NominatimAddress) : Option String :=
  if truthyStr a.city then a.city
  else if truthyStr a.town then a.town
  else a.village

/-- The `AbortError` with which `fetch` rejects when the timeout controller
fires. -/
def abortErrorJs : JsError :=
  { name := "AbortError", message := "The operation was aborted" }

/-- A reverse-geocoding provider record whose `lat` string does not parse
(`parseFloat` yields NaN). -/
def nanReverseResponse : NominatimResponse :=
  { lat := .nan, lon := .num 0, display_name := "somewhere" }

/-- A provider address sub-object whose `city` key is present but holds the
empty string, with a non-empty `town`. -/
def cityCaseAddress : NominatimAddress :=
  { city := some "", town := some "Springfield" }

/-! ### Helper lemmas -/

/-- When every attempt fails, the retry loop runs `fuel + 1` attempts from
attempt `k`, waits the full exponential-backoff schedule, and ends with the
last attempt's error. -/
theorem pRetryGo_allFail {E α : Type} (minT maxT factor : ℕ) (errs : ℕ → E)
    (fuel : ℕ) : ∀ k : ℕ, 1 ≤ k →
    pRetryGo minT maxT factor (fun j => (Except.error (errs j) : Except E α)) fuel k =
      ⟨fuel + 1,
        (List.range fuel).map fun i => min (minT * factor ^ (k - 1 + i)) maxT,
        Except.error (errs (k + fuel))⟩ := by
  induction fuel with
  | zero =>
    intro k hk
    simp [pRetryGo]
  | succ fuel ih =>
    intro k hk
    simp only [pRetryGo, ih (k + 1) (by omega)]
    refine congrArg₂ (RetryTrace.mk (fuel + 1 + 1)) ?_ (congrArg Except.error (congrArg errs (by omega)))
    rw [List.range_succ_eq_map, List.map_cons, List.map_map]
    refine congrArg₂ List.cons (by norm_num) ?_
    refine List.map_congr_left fun i _ => ?_
    have h3 : k - 1 + (i + 1) = k + i := by omega
    simp [Function.comp, h3]

/-- A successful retry-loop outcome always comes from some successful
attempt. -/
theorem pRetryGo_ok {E α : Type} (minT maxT factor : ℕ) (attempt : ℕ → Except E α)
    (fuel : ℕ) : ∀ (k : ℕ) (v : α),
    (pRetryGo minT maxT factor attempt fuel k).outcome = Except.ok v →
    ∃ j, attempt j = Except.ok v := by
  induction fuel with
  | zero =>
    intro k v h
    cases ha : attempt k with
    | ok v' =>
      simp only [pRetryGo, ha] at h
      simp only [Except.ok.injEq] at h
      exact ⟨k, by rw [ha, h]⟩
    | error e =>
      simp only [pRetryGo, ha] at h
      cases h
  | succ fuel ih =>
    intro k v h
    cases ha : attempt k with
    | ok v' =>
      simp only [pRetryGo, ha] at h
      simp only [Except.ok.injEq] at h
      exact ⟨k, by rw [ha, h]⟩
    | error e =>
      simp only [pRetryGo, ha] at h
      exact ih (k + 1) v h

/-- The NaN check and the range check of `geocode` together guarantee valid
coordinates. -/
theorem valid_of_checks (lat lon : JsNum)
    (h1 : (lat.isNaN || lon.isNaN) = false)
    (h2 : outOfRangeCheck lat lon = false) :
    validCoordinates ⟨lat, lon⟩ = true := by
  cases lat <;> cases lon <;>
    simp_all [JsNum.isNaN, outOfRangeCheck, JsNum.jlt, validCoordinates,
      JsNum.validRange]

/-- A payload that `normalizeSearch` accepts yields validated coordinates. -/
theorem normalizeSearch_ok_valid (address : String)
    (payload : Option (List NominatimResponse)) (v : GeocodeResult)
    (h : normalizeSearch address payload = Except.ok v) :
    validCoordinates v.coordinates = true := by
  match payload with
  | none => simp [normalizeSearch] at h
  | some [] => simp [normalizeSearch] at h
  | some (r :: rest) =>
    simp only [normalizeSearch] at h
    split at h
    · cases h
    · split at h
      · cases h
      · cases h
        next h2 h1 =>
          exact valid_of_checks r.lat r.lon (by simpa using h2) (by simpa using h1)

/-- A successful `geocode` attempt yields validated coordinates. -/
theorem geocodeAttempt_ok_valid (address : String)
    (outcome : FetchOutcome (Option (List NominatimResponse))) (v : GeocodeResult)
    (h : geocodeAttempt address outcome = Except.ok v) :
    validCoordinates v.coordinates = true := by
  unfold geocodeAttempt at h
  cases hf : fetchWithTimeout outcome with
  | ok p =>
    rw [hf] at h
    exact normalizeSearch_ok_valid address p v h
  | error e =>
    rw [hf] at h
    cases h

/-- Membership in a `batchGeocode` result is exactly per-address geocoding
success. -/
theorem batchGeocode_mem (g : String → Except JsError GeocodeResult)
    (addresses : List String) (r : GeocodeResult) :
    r ∈ batchGeocode g addresses ↔ ∃ a ∈ addresses, g a = Except.ok r := by
  unfold batchGeocode
  rw [List.reduceOption_mem_iff]
  constructor
  · intro h
    rcases List.mem_map.mp h with ⟨a, ha, hEq⟩
    refine ⟨a, ha, ?_⟩
    cases hga : g a <;> simp [perAddressCatch, hga] at hEq
    rw [hEq]
  · rintro ⟨a, ha, hga⟩
    exact List.mem_map.mpr ⟨a, ha, by simp [perAddressCatch, hga]⟩

/-- Window start counts add over log concatenation. -/
theorem windowStartCount_append (interval win : ℕ) (l₁ l₂ : List ℕ) :
    windowStartCount interval win (l₁ ++ l₂) =
      windowStartCount interval win l₁ + windowStartCount interval win l₂ := by
  unfold windowStartCount
  rw [List.filter_append, List.length_append]

/-- The window start count of `n` starts logged at one time `t`. -/
theorem windowStartCount_replicate (interval win n t : ℕ) :
    windowStartCount interval win (List.replicate n t) =
      if t / interval = win then n else 0 := by
  induction n with
  | zero => simp [windowStartCount]
  | succ n ih =>
    unfold windowStartCount at ih ⊢
    rw [List.replicate_succ, List.filter_cons]
    by_cases h : t / interval = win
    · simp [h, ih]
    · simp [h, ih]

/-- The queue never has more than `concurrency` tasks executing. -/
theorem qrun_running_le (cfg : QueueConfig) (tasks : List ℕ) (k : ℕ) :
    (qrun cfg tasks k).running.length ≤ cfg.concurrency := by
  induction k with
  | zero => simp [qrun]
  | succ k ih =>
    have hstep :
        (qrun cfg tasks (k + 1)).running.length ≤ cfg.concurrency := by
      show (qstep cfg (qrun cfg tasks k)).running.length ≤ cfg.concurrency
      set s := qrun cfg tasks k with hs
      unfold qstep
      simp only [List.length_append, List.length_take]
      have hsr :
          ((s.running.map fun d => d - 1).filter fun d => decide (d ≠ 0)).length
            ≤ s.running.length := by
        calc ((s.running.map fun d => d - 1).filter fun d => decide (d ≠ 0)).length
            ≤ (s.running.map fun d => d - 1).length := List.length_filter_le _ _
          _ = s.running.length := List.length_map _ _
      omega
    exact hstep

/-- No fixed interval window ever accumulates more than `intervalCap` task
starts. -/
theorem qrun_window_le (cfg : QueueConfig) (tasks : List ℕ) (k win : ℕ) :
    windowStartCount cfg.interval win (qrun cfg tasks k).startLog ≤ cfg.intervalCap := by
  induction k with
  | zero => simp [qrun, windowStartCount]
  | succ k ih =>
    show windowStartCount cfg.interval win (qstep cfg (qrun cfg tasks k)).startLog
      ≤ cfg.intervalCap
    set s := qrun cfg tasks k with hs
    unfold qstep
    simp only
    rw [windowStartCount_append, windowStartCount_replicate]
    split_ifs with h
    · have hw : windowStartCount cfg.interval win s.startLog
          = windowStartCount cfg.interval (s.time / cfg.interval) s.startLog := by
        rw [h]
      omega
    · omega

/-- A retry run whose every attempt fails with the same error ends with that
error. -/
theorem geocodeRetry_constFail (R : ℕ) (e : JsError)
    (att : ℕ → Except JsError GeocodeResult) (h : ∀ k, att k = Except.error e) :
    (geocodeRetry R att).outcome = Except.error e := by
  have hatt : att = fun j => Except.error ((fun i => e) j) := funext fun k => h k
  unfold geocodeRetry pRetryRun
  rw [hatt, pRetryGo_allFail 1000 10000 2 (fun i => e) R 1 (le_refl 1)]

/-! ### Claim theorems -/

/-- Claim C1 counterexample: the claim asserts that every result returned by
`reverseGeocode` has non-NaN, in-range coordinates and that a NaN parsed
coordinate always causes a `GeocodingError` rejection. On the code, a
reverse-geocoding payload whose `lat` does not parse (`parseFloat` yields
NaN) makes the call resolve successfully with a NaN latitude: the reverse
path performs no coordinate validation (geocoding.ts lines 303-307). -/
theorem reverseGeocode_returns_nan_coordinate :
    (reverseGeocodeCall 3 "0, 0" fun _ =>
        FetchOutcome.response 200 "OK" (Except.ok (some nanReverseResponse))).outcome
      = Except.ok (resultFrom nanReverseResponse ⟨JsNum.nan, JsNum.num 0⟩)
    ∧ (resultFrom nanReverseResponse ⟨JsNum.nan, JsNum.num 0⟩).coordinates.latitude.isNaN = true
    ∧ validCoordinates (resultFrom nanReverseResponse ⟨JsNum.nan, JsNum.num 0⟩).coordinates
        = false :=
  ⟨rfl, rfl, rfl⟩

/-- Claim C1 (amended): every result resolved by `geocode` -- and hence every
result collected by `batchGeocode` -- has validated coordinates (finite,
non-NaN, latitude in [-90, 90], longitude in [-180, 180]), and a first search
result whose parsed latitude or longitude is NaN or out of range makes the
attempt reject with a `GeocodingError`; `reverseGeocode` performs no such
validation (see the counterexample). -/
theorem geocode_coordinates_validated :
    (∀ (R : ℕ) (address : String)
        (outcomes : ℕ → FetchOutcome (Option (List NominatimResponse)))
        (v : GeocodeResult),
        (geocodeCall R address outcomes).outcome = Except.ok v →
        validCoordinates v.coordinates = true)
    ∧ (∀ (address : String) (r : NominatimResponse) (rest : List NominatimResponse),
        ((r.lat.isNaN || r.lon.isNaN) || outOfRangeCheck r.lat r.lon) = true →
        ∃ e, normalizeSearch address (some (r :: rest)) = Except.error e
          ∧ isGeocodingError e = true)
    ∧ (∀ (R : ℕ)
        (outcomes : String → ℕ → FetchOutcome (Option (List NominatimResponse)))
        (addresses : List String) (v : GeocodeResult),
        v ∈ batchGeocode (fun a => (geocodeCall R a (outcomes a)).outcome) addresses →
        validCoordinates v.coordinates = true) := by
  have part1 : ∀ (R : ℕ) (address : String)
      (outcomes : ℕ → FetchOutcome (Option (List NominatimResponse)))
      (v : GeocodeResult),
      (geocodeCall R address outcomes).outcome = Except.ok v →
      validCoordinates v.coordinates = true := by
    intro R address outcomes v h
    unfold geocodeCall geocodeRetry pRetryRun at h
    rcases pRetryGo_ok 1000 10000 2 _ R 1 v h with ⟨j, hj⟩
    exact geocodeAttempt_ok_valid address (outcomes j) v hj
  refine ⟨part1, ?_, ?_⟩
  · intro address r rest hbad
    by_cases h1 : (r.lat.isNaN || r.lon.isNaN) = true
    · refine ⟨invalidCoordsError, ?_, rfl⟩
      simp [normalizeSearch, h1]
    · have h1f : (r.lat.isNaN || r.lon.isNaN) = false := by
        simpa using h1
      have h2 : outOfRangeCheck r.lat r.lon = true := by
        simpa [h1f] using hbad
      refine ⟨outOfRangeError, ?_, rfl⟩
      simp [normalizeSearch, h1f, h2]
  · intro R outcomes addresses v h
    rcases (batchGeocode_mem _ _ _).mp h with ⟨a, ha, hga⟩
    exact part1 R a (outcomes a) v hga

/-- Witness for claim C1 (amended) at concrete inputs: a concrete successful
geocode call yields validated coordinates, and a concrete NaN payload is
rejected with a `GeocodingError`. -/
theorem geocode_coordinates_validated_witness :
    validCoordinates
        (resultFrom ⟨JsNum.num 40, JsNum.num (-73), "d", none, none⟩
          ⟨JsNum.num 40, JsNum.num (-73)⟩).coordinates = true
    ∧ ∃ e, normalizeSearch "a" (some [⟨JsNum.nan, JsNum.num 0, "d", none, none⟩])
        = Except.error e ∧ isGeocodingError e = true :=
  ⟨geocode_coordinates_validated.1 0 "a"
      (fun _ => FetchOutcome.response 200 "OK"
        (Except.ok (some [⟨JsNum.num 40, JsNum.num (-73), "d", none, none⟩]))) _ (by rfl),
    geocode_coordinates_validated.2.1 "a"
      ⟨JsNum.nan, JsNum.num 0, "d", none, none⟩ [] (by decide)⟩

/-- Claim C2: with R configured retries, a geocode call whose every attempt
fails performs exactly R + 1 attempts, waits `min(1000 * 2 ^ (k - 1), 10000)`
milliseconds before the k-th retry (k = 1..R), and rejects with the last
attempt's error; instantiated both for an arbitrary stream of attempt errors
and for a full `geocode` call whose every transport attempt times out. -/
theorem geocode_retry_schedule (R : ℕ) (address : String) (errs : ℕ → JsError) :
    geocodeRetry R (fun k => (Except.error (errs k) : Except JsError GeocodeResult))
      = ⟨R + 1, (List.range R).map fun i => min (1000 * 2 ^ i) 10000,
          Except.error (errs (R + 1))⟩
    ∧ geocodeCall R address (fun _ => FetchOutcome.fetchError abortErrorJs)
      = ⟨R + 1, (List.range R).map fun i => min (1000 * 2 ^ i) 10000,
          Except.error timeoutError⟩ := by
  have base : ∀ es : ℕ → JsError,
      geocodeRetry R (fun k => (Except.error (es k) : Except JsError GeocodeResult))
        = ⟨R + 1, (List.range R).map fun i => min (1000 * 2 ^ i) 10000,
            Except.error (es (R + 1))⟩ := by
    intro es
    unfold geocodeRetry pRetryRun
    rw [pRetryGo_allFail 1000 10000 2 es R 1 (le_refl 1)]
    congr 1
    · refine List.map_congr_left fun i _ => ?_
      norm_num
    · exact congrArg Except.error (congrArg es (by omega))
  refine ⟨base errs, ?_⟩
  have h1 : geocodeCall R address (fun _ => FetchOutcome.fetchError abortErrorJs)
      = geocodeRetry R fun k =>
          (Except.error ((fun _ => timeoutError) k) : Except JsError GeocodeResult) := by
    unfold geocodeCall
    exact congrArg (geocodeRetry R) (funext fun k => rfl)
  rw [h1]
  exact base fun _ => timeoutError

/-- Claim C3: the transport adapter classifies each single-attempt outcome:
timeout (`AbortError`) to `TimeoutError`; HTTP 429 to `RateLimitError` with
status code 429; other HTTP statuses at least 400 to `GeocodingError` with
the status code and status text; a transport `TypeError` to `NetworkError`;
any other failure propagates unchanged; and a 2xx response resolves with the
parsed JSON payload. -/
theorem fetchWithTimeout_classification {α : Type} :
    (∀ e : JsError, e.name = "AbortError" →
        fetchWithTimeout (α := α) (FetchOutcome.fetchError e)
          = Except.error timeoutError)
    ∧ (∀ (statusText : String) (json : Except JsError α),
        fetchWithTimeout (FetchOutcome.response 429 statusText json)
            = Except.error rateLimitError
          ∧ rateLimitError.statusCode = some 429
          ∧ rateLimitError.name = "RateLimitError")
    ∧ (∀ (status : ℕ) (statusText : String) (json : Except JsError α),
        400 ≤ status → status ≠ 429 →
        fetchWithTimeout (FetchOutcome.response status statusText json)
            = Except.error (apiGeoError status statusText)
          ∧ (apiGeoError status statusText).statusCode = some status
          ∧ (apiGeoError status statusText).name = "GeocodingError")
    ∧ (∀ e : JsError, e.name ≠ "AbortError" → e.isTypeError = true →
        fetchWithTimeout (α := α) (FetchOutcome.fetchError e)
          = Except.error networkError)
    ∧ (∀ e : JsError, e.name ≠ "AbortError" → e.isTypeError = false →
        fetchWithTimeout (α := α) (FetchOutcome.fetchError e) = Except.error e)
    ∧ (∀ (status : ℕ) (statusText : String) (v : α),
        200 ≤ status → status ≤ 299 →
        fetchWithTimeout (FetchOutcome.response status statusText (Except.ok v))
          = Except.ok v)
    ∧ timeoutError.name = "TimeoutError"
    ∧ networkError.name = "NetworkError" := by
  refine ⟨?_, ?_, ?_, ?_, ?_, ?_, rfl, rfl⟩
  · intro e h
    have hb : (e.name == "AbortError") = true := by
      simp [h]
    simp [fetchWithTimeout, fetchWithTimeoutComp, tryCatchFinally, tryBodyComp,
      catchClause, hb]
  · intro statusText json
    exact ⟨rfl, rfl, rfl⟩
  · intro status statusText json h4 hne
    have hok : respOk status = false := by
      simp only [respOk, decide_eq_false_iff_not]
      omega
    have h429 : (status == 429) = false := by
      simp [hne]
    have h400 : decide (400 ≤ status) = true := by
      simp [h4]
    have hcc : catchClause (apiGeoError status statusText)
        = apiGeoError status statusText := rfl
    refine ⟨?_, rfl, rfl⟩
    simp [fetchWithTimeout, fetchWithTimeoutComp, tryCatchFinally, tryBodyComp,
      hok, h429, h400, hcc]
  · intro e hn ht
    have hb : (e.name == "AbortError") = false := by
      simp [hn]
    simp [fetchWithTimeout, fetchWithTimeoutComp, tryCatchFinally, tryBodyComp,
      catchClause, hb, ht]
  · intro e hn ht
    have hb : (e.name == "AbortError") = false := by
      simp [hn]
    simp [fetchWithTimeout, fetchWithTimeoutComp, tryCatchFinally, tryBodyComp,
      catchClause, hb, ht]
  · intro status statusText v h2 h3
    have hok : respOk status = true := by
      simp only [respOk, decide_eq_true_eq]
      omega
    simp [fetchWithTimeout, fetchWithTimeoutComp, tryCatchFinally, tryBodyComp,
      hok, Outcome.ofExcept]

/-- Witness for claim C3 at concrete transport outcomes of every class. -/
theorem fetchWithTimeout_classification_witness :
    fetchWithTimeout (α := ℕ) (FetchOutcome.fetchError abortErrorJs)
        = Except.error timeoutError
    ∧ fetchWithTimeout (α := ℕ) (FetchOutcome.response 500 "Server Error" (Except.ok 0))
        = Except.error (apiGeoError 500 "Server Error")
    ∧ fetchWithTimeout (α := ℕ)
          (FetchOutcome.fetchError
            { name := "TypeError", message := "fetch failed", isTypeError := true })
        = Except.error networkError
    ∧ fetchWithTimeout (α := ℕ)
          (FetchOutcome.fetchError { name := "SyntaxError", message := "bad json" })
        = Except.error { name := "SyntaxError", message := "bad json" }
    ∧ fetchWithTimeout (α := ℕ) (FetchOutcome.response 200 "OK" (Except.ok 7))
        = Except.ok 7 :=
  ⟨(fetchWithTimeout_classification (α := ℕ)).1 abortErrorJs rfl,
    ((fetchWithTimeout_classification (α := ℕ)).2.2.1 500 "Server Error"
      (Except.ok 0) (by decide) (by decide)).1,
    (fetchWithTimeout_classification (α := ℕ)).2.2.2.1
      { name := "TypeError", message := "fetch failed", isTypeError := true }
      (by decide) rfl,
    (fetchWithTimeout_classification (α := ℕ)).2.2.2.2.1
      { name := "SyntaxError", message := "bad json" } (by decide) rfl,
    (fetchWithTimeout_classification (α := ℕ)).2.2.2.2.2.1 200 "OK" 7
      (by decide) (by decide)⟩

/-- Claim C4: a geocode attempt whose payload is an empty or absent
collection rejects with a `GeocodingError` whose message is
`No results found for address: ` followed by the queried address -- and a
whole geocode call whose every attempt sees such a payload finally rejects
with that error; a reverse-geocode attempt with an absent payload rejects
with a `GeocodingError`. -/
theorem empty_payload_rejects (address ctext : String) (R : ℕ) :
    normalizeSearch address none = Except.error (noResultsError address)
    ∧ normalizeSearch address (some []) = Except.error (noResultsError address)
    ∧ (noResultsError address).message = "No results found for address: " ++ address
    ∧ isGeocodingError (noResultsError address) = true
    ∧ (geocodeCall R address fun _ =>
          FetchOutcome.response 200 "OK" (Except.ok (some []))).outcome
        = Except.error (noResultsError address)
    ∧ (geocodeCall R address fun _ =>
          FetchOutcome.response 200 "OK" (Except.ok none)).outcome
        = Except.error (noResultsError address)
    ∧ normalizeReverse ctext none = Except.error (noReverseResultsError ctext)
    ∧ isGeocodingError (noReverseResultsError ctext) = true := by
  refine ⟨rfl, rfl, rfl, rfl, ?_, ?_, rfl, rfl⟩
  · exact geocodeRetry_constFail R (noResultsError address) _ fun _ => rfl
  · exact geocodeRetry_constFail R (noResultsError address) _ fun _ => rfl

/-- Claim C5: `batchGeocode` absorbs every per-address failure and returns
exactly the successful results: membership in the returned collection is
equivalent to per-address geocoding success, a failing address maps to the
dropped null, and a succeeding address maps to its result. -/
theorem batchGeocode_absorbs_failures (g : String → Except JsError GeocodeResult)
    (addresses : List String) (r : GeocodeResult) :
    (r ∈ batchGeocode g addresses ↔ ∃ a ∈ addresses, g a = Except.ok r)
    ∧ (∀ e : JsError, perAddressCatch (Except.error e) = none)
    ∧ (∀ v : GeocodeResult, perAddressCatch (Except.ok v) = some v) :=
  ⟨batchGeocode_mem g addresses r, fun _ => rfl, fun _ => rfl⟩

/-- Claim C6: the per-call retry loop never inspects the error to decide
retryability: every failing run makes exactly R + 1 attempts whatever the
errors are, the backoff schedule is identical for any two error streams, and
errors classified non-retryable by the external `isRetryable` taxonomy (such
as `GeocodingError` or `ValidationError`) are retried all the same. -/
theorem retry_never_inspects_error (R : ℕ) (errs : ℕ → JsError) (e : JsError) :
    (geocodeRetry R fun k =>
        (Except.error (errs k) : Except JsError GeocodeResult)).attemptsMade = R + 1
    ∧ (geocodeRetry R fun k =>
          (Except.error (errs k) : Except JsError GeocodeResult)).delays
        = (geocodeRetry R fun _ =>
            (Except.error e : Except JsError GeocodeResult)).delays
    ∧ isRetryable "GeocodingError" = false
    ∧ isRetryable "ValidationError" = false := by
  have h1 := pRetryGo_allFail (α := GeocodeResult) 1000 10000 2 errs R 1 (le_refl 1)
  have h2 := pRetryGo_allFail (α := GeocodeResult) 1000 10000 2 (fun _ => e) R 1 (le_refl 1)
  refine ⟨?_, ?_, rfl, rfl⟩
  · unfold geocodeRetry pRetryRun
    rw [h1]
  · unfold geocodeRetry pRetryRun
    rw [h1, h2]

/-- Claim C7: every invocation of `fetchWithTimeout` clears its timeout timer
exactly once, as the last action, on every exit path -- resolution, classified
rejection, or propagation of an unexpected failure. -/
theorem fetchWithTimeout_clears_timer {α : Type} (outcome : FetchOutcome α) :
    (fetchWithTimeoutComp outcome).actions.getLast? = some Action.clearTimer
    ∧ (fetchWithTimeoutComp outcome).actions.count Action.clearTimer = 1
    ∧ (fetchWithTimeoutComp outcome).actions.head? = some Action.setTimer := by
  cases outcome with
  | fetchError e => exact ⟨rfl, rfl, rfl⟩
  | response status statusText json =>
    refine ⟨?_, ?_, ?_⟩ <;>
      · simp only [fetchWithTimeoutComp, tryCatchFinally, tryBodyComp]
        split
        · rfl
        · split
          · rfl
          · rfl

/-- Claim C8 counterexample: the claim reads the city preference as keyed on
presence, but the source keys it on JavaScript truthiness: a present but
empty-string `city` with a non-empty `town` yields the town, not the
empty city. -/
theorem city_presence_counterexample :
    (mapAddress cityCaseAddress).city = some "Springfield"
    ∧ cityBySpecPresence cityCaseAddress = some ""
    ∧ ¬ (mapAddress cityCaseAddress).city = cityBySpecPresence cityCaseAddress :=
  ⟨rfl, rfl, by decide⟩

/-- Claim C8 (amended): a geocode attempt derives its result from element 0
of the collection only (the tail never matters -- no re-ranking), and the
normalized city field is the provider's `city` when present and non-empty,
otherwise the `town` when present and non-empty, otherwise the `village`. -/
theorem first_result_selected_city_truthy (address : String) (r : NominatimResponse)
    (rest : List NominatimResponse) (a : NominatimAddress) :
    normalizeSearch address (some (r :: rest)) = normalizeSearch address (some [r])
    ∧ (mapAddress a).city = cityAmended a := by
  refine ⟨rfl, ?_⟩
  have hOr : ∀ x y z : Option String,
      jsOrS (jsOrS x y) z =
        if truthyStr x then x else if truthyStr y then y else z := by
    intro x y z
    cases x <;> cases y <;> simp [jsOrS, truthyStr] <;> split_ifs <;> simp_all
  simp [mapAddress, cityAmended, hOr]

/-- Claim C9: in the queue model, at no reachable state do more than
`concurrency` admitted tasks execute simultaneously, and no fixed
`interval`-millisecond window ever contains more than `intervalCap` task
starts. -/
theorem queue_respects_caps (cfg : QueueConfig) (tasks : List ℕ) (k win : ℕ) :
    (qrun cfg tasks k).running.length ≤ cfg.concurrency
    ∧ windowStartCount cfg.interval win (qrun cfg tasks k).startLog ≤ cfg.intervalCap :=
  ⟨qrun_running_le cfg tasks k, qrun_window_le cfg tasks k win⟩

/-- Claim C10: `batchGeocode` keeps the surviving results in the relative
order of their addresses: it maps over batches homomorphically (results of
earlier addresses precede results of later ones) and each single address
contributes its own success or nothing. -/
theorem batchGeocode_preserves_order (g : String → Except JsError GeocodeResult)
    (l₁ l₂ : List String) (a : String) :
    batchGeocode g (l₁ ++ l₂) = batchGeocode g l₁ ++ batchGeocode g l₂
    ∧ batchGeocode g [a] =
        (match g a with
          | Except.ok r => [r]
          | Except.error _ => []) := by
  constructor
  · unfold batchGeocode
    rw [List.map_append, List.reduceOption_append]
  · unfold batchGeocode
    rcases hga : g a with e | r <;>
      simp [perAddressCatch, hga, List.reduceOption_cons_of_some,
        List.reduceOption_nil, List.reduceOption_cons_of_none]

end BmltGeo
